import Mathlib

/-!
Shallow embedding of the Gemini websocket adapter
(`cryptofeed/exchanges/gemini.py`) and theorems checking the
specification's claims against it.

Wire-level `Decimal` price/amount/timestamp values are embedded as `ℚ`
(arbitrary-precision rationals).  Python dicts keyed by strings are
embedded as association lists with first-key-wins lookup and
update-in-place-or-append assignment, matching dict semantics for the
operations the adapter performs.  Fallible dict indexing (a `KeyError`)
is embedded as `Option`.
-/

namespace GeminiAdapter

/-- Modelled from the spec: the canonical channel/side/status constants of
`cryptofeed.defines`, a module of this repository that is not under `src/`.
The adapter only ever compares them and passes them through; the claims need
only that they are distinct strings. -/
def L2_BOOK : String := "l2_book"

def TRADES : String := "trades"

def ORDER_INFO : String := "order_info"

def BUY : String := "buy"

def SELL : String := "sell"

def SUBMITTING : String := "submitting"

def FILLED : String := "filled"

def OPEN : String := "open"

def FAILED : String := "failed"

def CANCELLED : String := "cancelled"

def LIMIT : String := "limit"

def STOP_LIMIT : String := "stop-limit"

def GEMINI : String := "GEMINI"

/-- Python's `str.upper()` (over the code points, which suffices for the
ASCII currency/side tokens the adapter upcases). -/
def strUpper (s : String) : String := String.mk (s.data.map Char.toUpper)

/-- Python's `str.lower()`. -/
def strLower (s : String) : String := String.mk (s.data.map Char.toLower)

/-- A side of the book, the embedding of the `BID` / `ASK` dict keys. -/
inductive Side where
  | bid
  | ask
deriving DecidableEq

abbrev Price := ℚ

abbrev Size := ℚ

/-- One side of an order-book replica: an association list from price to
size, the embedding of the `SortedDict` used by `OrderBook`.  (Claims here
do not depend on key order, only on the key-value mapping.) -/
abbrev BookSide := List (Price × Size)

/-- Dict assignment `d[p] = s`: update in place if the key is present,
append otherwise. -/
def setLevel : BookSide → Price → Size → BookSide
  | [], p, s => [(p, s)]
  | (q, t) :: rest, p, s =>
      if q = p then (p, s) :: rest else (q, t) :: setLevel rest p s

/-- Dict deletion `del d[p]`. -/
def delLevel : BookSide → Price → BookSide
  | [], _ => []
  | (q, t) :: rest, p =>
      if q = p then delLevel rest p else (q, t) :: delLevel rest p

/-- Dict membership `p in d`. -/
def sideHasPrice (b : BookSide) (p : Price) : Bool :=
  b.any (fun e => decide (e.1 = p))

/-- A per-symbol two-sided book replica (`OrderBook(...).book`). -/
structure Book where
  bids : BookSide
  asks : BookSide
deriving DecidableEq

/-- The empty replica created by `Gemini.__reset` for each subscribed pair. -/
def Book.empty : Book := ⟨[], []⟩

def Book.getSide (bk : Book) : Side → BookSide
  | .bid => bk.bids
  | .ask => bk.asks

def Book.withSide (bk : Book) : Side → BookSide → Book
  | .bid, s => { bk with bids := s }
  | .ask, s => { bk with asks := s }

/-- The per-frame delta record `{BID: [], ASK: []}` built by `Gemini._book`. -/
structure Deltas where
  bid : List (Price × Size)
  ask : List (Price × Size)
deriving DecidableEq

def Deltas.push (d : Deltas) : Side → Price × Size → Deltas
  | .bid, e => { d with bid := d.bid ++ [e] }
  | .ask, e => { d with ask := d.ask ++ [e] }

/-- One entry of a book frame's `changes` array: a `[side, price, amount]`
triple with the side still the native string. -/
structure Change where
  side : String
  price : Price
  amount : Size
deriving DecidableEq

/-- The native side token: `ASK if entry[0] == 'sell' else BID`
(gemini.py line 100). -/
def Change.resolvedSide (c : Change) : Side :=
  if c.side = "sell" then Side.ask else Side.bid

/-- The body of the per-entry loop of `Gemini._book`
(gemini.py lines 100-109): apply one change to the replica and record its
delta entry. -/
def applyChange (bk : Book) (d : Deltas) (c : Change) : Book × Deltas :=
  let side := c.resolvedSide
  if c.amount = 0 then
    if sideHasPrice (bk.getSide side) c.price then
      (bk.withSide side (delLevel (bk.getSide side) c.price),
       d.push side (c.price, 0))
    else
      (bk, d)
  else
    (bk.withSide side (setLevel (bk.getSide side) c.price c.amount),
     d.push side (c.price, c.amount))

/-- Generic string-keyed dict lookup `d[k]` / `d.get(k)`. -/
def assocGet {β : Type} : List (String × β) → String → Option β
  | [], _ => none
  | (k2, v) :: rest, k => if k2 = k then some v else assocGet rest k

/-- Generic string-keyed dict assignment `d[k] = v`. -/
def assocSet {β : Type} : List (String × β) → String → β → List (String × β)
  | [], k, v => [(k, v)]
  | (k2, v2) :: rest, k, v =>
      if k2 = k then (k, v) :: rest else (k2, v2) :: assocSet rest k v

/-- The feed's channel subscription `self.subscription`: a dict from channel
name to the list of native symbols subscribed on it. -/
structure Subscription where
  channels : List (String × List String)

/-- The book-interest filter of `Gemini._book` (gemini.py line 93):
`self.subscription and ((L2_BOOK in self.subscription and msg['symbol'] not
in self.subscription[L2_BOOK]) or L2_BOOK not in self.subscription)`. -/
def excludedBySubscription (sub : Subscription) (sym : String) : Bool :=
  !sub.channels.isEmpty &&
    (((assocGet sub.channels L2_BOOK).isSome &&
        (match assocGet sub.channels L2_BOOK with
         | some syms => !(decide (sym ∈ syms))
         | none => false)) ||
      !(assocGet sub.channels L2_BOOK).isSome)

/-- A parsed `l2_updates` frame: `symbol` and the `changes` array. -/
structure BookMsg where
  symbol : String
  changes : List Change
deriving DecidableEq

/-- The book-callback emission
(`book_callback(L2_BOOK, book, ts, delta=..., raw=msg)`): the replica view
and the delta payload, which is `none` for a forced snapshot. -/
structure Emission where
  symbol : String
  book : Book
  delta : Option Deltas
deriving DecidableEq

/-- The per-connection book state `self._l2_book`: a dict from standardized
symbol to its replica. -/
abbrev BookState := List (String × Book)

/-- `Gemini.__reset` (gemini.py lines 67-69): re-create an empty replica for
every pair, keyed by the standardized symbol.  `std` embeds
`exchange_symbol_to_std_symbol`. -/
def resetBooks (std : String → String) (pairs : List String) (st : BookState) :
    BookState :=
  pairs.foldl (fun acc pair => assocSet acc (std pair) Book.empty) st

/-- `Gemini._book` (gemini.py lines 89-111).  Returns the updated state and
the emission, or `none` when the handler raises (`KeyError` on a symbol whose
replica was never created).  A filtered frame returns the state unchanged
with no emission. -/
def bookHandler (std : String → String) (sub : Subscription) (st : BookState)
    (msg : BookMsg) : Option (BookState × Option Emission) :=
  let pair := std msg.symbol
  if excludedBySubscription sub msg.symbol then
    some (st, none)
  else
    match assocGet st pair with
    | none => none
    | some bk =>
        let forced := bk.bids.isEmpty
        let r := msg.changes.foldl (fun acc c => applyChange acc.1 acc.2 c)
          (bk, Deltas.mk [] [])
        some (assocSet st pair r.1,
              some ⟨pair, r.1, if forced then none else some r.2⟩)

/-- Run `Gemini._book` over a sequence of frames in arrival order. -/
def runBookFrames (std : String → String) (sub : Subscription)
    (st : BookState) : List BookMsg → Option BookState
  | [] => some st
  | m :: rest =>
      match bookHandler std sub st m with
      | none => none
      | some (st2, _) => runBookFrames std sub st2 rest

/-- `Gemini.timestamp_normalize` (gemini.py lines 44-46): native millisecond
epoch divided by `1000.0`. -/
def timestamp_normalize (ts : ℚ) : ℚ := ts / 1000

/-- A parsed `trade` frame. -/
structure TradeMsg where
  symbol : String
  price : ℚ
  side : String
  quantity : ℚ
  timestamp : ℚ
  event_id : Int
deriving DecidableEq

/-- The canonical Trade value (`cryptofeed.types.Trade`) as far as the
adapter populates it. -/
structure Trade where
  exchange : String
  symbol : String
  side : String
  amount : ℚ
  price : ℚ
  timestamp : ℚ
  id : String
deriving DecidableEq

/-- `Gemini._trade` (gemini.py lines 113-119). -/
def tradeOf (std : String → String) (msg : TradeMsg) : Trade :=
  { exchange := GEMINI
    symbol := std msg.symbol
    side := if msg.side = "sell" then SELL else BUY
    amount := msg.quantity
    price := msg.price
    timestamp := timestamp_normalize msg.timestamp
    id := toString msg.event_id }

/-- A parsed order-event object (the fields `Gemini._order` reads). -/
structure OrderMsg where
  type : String
  order_id : String
  symbol : String
  side : String
  order_type : String
  price : ℚ
  executed_amount : ℚ
  remaining_amount : ℚ
  timestampms : ℚ
deriving DecidableEq

/-- The native-to-canonical status mapping of `Gemini._order`
(gemini.py lines 141-152): a total function with a pass-through default. -/
def orderStatus (t : String) : String :=
  if t = "initial" ∨ t = "accepted" then SUBMITTING
  else if t = "fill" then FILLED
  else if t = "booked" then OPEN
  else if t = "rejected" then FAILED
  else if t = "cancelled" then CANCELLED
  else t

/-- The canonical OrderInfo value (`cryptofeed.types.OrderInfo`) as far as
the adapter populates it. -/
structure OrderInfo where
  exchange : String
  symbol : String
  order_id : String
  side : String
  status : String
  order_type : String
  price : ℚ
  executed : ℚ
  remaining : ℚ
  timestamp : ℚ
deriving DecidableEq

/-- `Gemini._order` (gemini.py lines 121-167): build the OrderInfo emitted
for one order-event object. -/
def orderInfoOf (std : String → String) (msg : OrderMsg) : OrderInfo :=
  { exchange := GEMINI
    symbol := std (strUpper msg.symbol)
    order_id := msg.order_id
    side := if strLower msg.side = "buy" then BUY else SELL
    status := orderStatus msg.type
    order_type := if msg.order_type = "exchange limit" then LIMIT
      else STOP_LIMIT
    price := msg.price
    executed := msg.executed_amount
    remaining := msg.remaining_amount
    timestamp := msg.timestampms / 1000 }

/-- An inbound frame after JSON parsing, split by the structural
discriminators `Gemini.message_handler` inspects: a JSON list (order-event
batch), an object with a recognized `type`, an object with an unrecognized
`type`, or an object with no `type` key. -/
inductive Frame where
  | orderList (entries : List OrderMsg)
  | book (msg : BookMsg)
  | trade (msg : TradeMsg)
  | heartbeat
  | subscriptionAck
  | auction
  | noType
  | unknown (t : String)
deriving DecidableEq

/-- One normalized event handed to the callback layer. -/
inductive Event where
  | bookEv (e : Emission)
  | tradeEv (t : Trade)
  | orderEv (o : OrderInfo)
deriving DecidableEq

/-- The status carried by an order event (empty for other event kinds). -/
def Event.statusOf : Event → String
  | .orderEv o => o.status
  | _ => ""

/-- `Gemini.message_handler` (gemini.py lines 169-190): classify the frame
and dispatch.  Returns the updated book state and the list of events emitted
for this frame, in emission order; `none` embeds a raised exception. -/
def message_handler (std : String → String) (sub : Subscription)
    (st : BookState) : Frame → Option (BookState × List Event)
  | .orderList es => some (st, es.map (fun m => Event.orderEv (orderInfoOf std m)))
  | .book m =>
      match bookHandler std sub st m with
      | none => none
      | some (st2, some em) => some (st2, [Event.bookEv em])
      | some (st2, none) => some (st2, [])
  | .trade m => some (st, [Event.tradeEv (tradeOf std m)])
  | .heartbeat => some (st, [])
  | .subscriptionAck => some (st, [])
  | .auction => some (st, [])
  | .noType => some (st, [])
  | .unknown _ => some (st, [])

/-- A JSON value of the shapes appearing in the signed payload:
strings and integers. -/
inductive JVal where
  | str (s : String)
  | num (n : Int)
deriving DecidableEq

def escapeJsonChar (c : Char) : List Char :=
  if c = '"' then ['\\', '"']
  else if c = '\\' then ['\\', '\\']
  else [c]

def jsonString (s : String) : String :=
  "\"" ++ String.mk (s.toList.foldr (fun c acc => escapeJsonChar c ++ acc) []) ++ "\""

def JVal.render : JVal → String
  | .str s => jsonString s
  | .num n => toString n

/-- Compact JSON serialization of a string-keyed object in insertion order,
the embedding of `json.dumps(payload)`. -/
def jsonDumps (d : List (String × JVal)) : String :=
  "\x7b" ++
    String.intercalate ","
      (d.map (fun kv => jsonString kv.1 ++ ":" ++ JVal.render kv.2)) ++
    "\x7d"

/-- UTF-8 encoding of one code point, the embedding of `.encode('utf-8')`. -/
def utf8EncodeNat (c : Nat) : List Nat :=
  if c < 128 then [c]
  else if c < 2048 then [192 + c / 64, 128 + c % 64]
  else if c < 65536 then [224 + c / 4096, 128 + (c / 64) % 64, 128 + c % 64]
  else [240 + c / 262144, 128 + (c / 4096) % 64, 128 + (c / 64) % 64,
        128 + c % 64]

def utf8Bytes (s : String) : List Nat :=
  s.toList.foldr (fun c acc => utf8EncodeNat c.toNat ++ acc) []

def b64Digit (n : Nat) : Char :=
  ("ABCDEFGHIJKLMNOPQRSTUVWXYZabcdefghijklmnopqrstuvwxyz0123456789+/").toList.getD
    n '='

/-- Standard base64 of a byte sequence, the embedding of
`base64.b64encode`. -/
def b64encode : List Nat → String
  | [] => ""
  | [a] => String.mk [b64Digit (a / 4), b64Digit (a % 4 * 16), '=', '=']
  | [a, b] =>
      let n := a * 256 + b
      String.mk [b64Digit (n / 1024), b64Digit (n / 16 % 64),
                 b64Digit (n % 16 * 4), '=']
  | a :: b :: c :: rest =>
      let n := a * 65536 + b * 256 + c
      String.mk [b64Digit (n / 262144), b64Digit (n / 4096 % 64),
                 b64Digit (n / 64 % 64), b64Digit (n % 64)] ++
        b64encode rest

/-- The header dict returned by `Gemini.generate_token`. -/
structure Token where
  payload : String
  apikey : String
  signature : String
deriving DecidableEq

/-- `Gemini.generate_token` (gemini.py lines 71-87).  The `hmac`/`hashlib`
libraries are external to the repository, so the keyed hex digest
`hmac.new(secret.encode(), data, hashlib.sha384).hexdigest()` is taken as an
explicit function argument `hmacSha384Hex : secret → data → hex`; the nonce
(`int(time.time() * 1000)` in production) is the explicit input `nonce`.
`account_name = none` embeds a falsy `self.account_name`. -/
def generate_token (hmacSha384Hex : String → String → String)
    (key_id key_secret : String) (account_name : Option String)
    (authRoute : String) (payload0 : List (String × JVal)) (nonce : Int) :
    Token :=
  let p1 := assocSet payload0 "request" (JVal.str authRoute)
  let p2 := assocSet p1 "nonce" (JVal.num nonce)
  let p3 := match account_name with
    | some a => assocSet p2 "account" (JVal.str a)
    | none => p2
  let b64 := b64encode (utf8Bytes (jsonDumps p3))
  { payload := b64
    apikey := key_id
    signature := hmacSha384Hex key_secret b64 }

/-- The route passed as `payload['request']`
(`self.rest_endpoints[0].routes.authentication`). -/
def authenticationRoute : String := "/v1/order/events"

/-- A raw instrument descriptor from REST discovery; each field is `none`
when the corresponding dict key is absent. -/
structure RawSymbol where
  status : Option String
  base_currency : Option String
  quote_currency : Option String
  symbol : Option String
  tick_size : Option ℚ
deriving DecidableEq

/-- Modelled from the spec: `cryptofeed.symbols.Symbol` (repository code not
under `src/`) — construction normalizes base/quote casing and the normalized
form joins them; plain spot instruments carry the spot instrument type. -/
def symbolNormalized (base quote : String) : String :=
  strUpper base ++ "-" ++ strUpper quote

def spotType : String := "spot"

/-- The `(ret, info)` output of symbol discovery: normalized-to-native
mapping plus the `tick_size` and `instrument_type` metadata dicts. -/
structure SymbolData where
  mapping : List (String × String)
  tick_sizes : List (String × ℚ)
  instrument_types : List (String × String)
deriving DecidableEq

/-- One iteration of the loop in `Gemini._parse_symbol_data`
(gemini.py lines 58-64): `none` embeds the `KeyError` raised when a required
field is absent.  `symbol['status']` is read first; a `closed` instrument is
skipped before any other field is read. -/
def parseOneSymbol (acc : SymbolData) (s : RawSymbol) : Option SymbolData :=
  match s.status with
  | none => none
  | some st =>
      if st = "closed" then some acc
      else
        match s.base_currency, s.quote_currency, s.symbol, s.tick_size with
        | some b, some q, some sym, some ts =>
            let n := symbolNormalized b q
            some { mapping := assocSet acc.mapping n sym
                   tick_sizes := assocSet acc.tick_sizes n ts
                   instrument_types :=
                     assocSet acc.instrument_types n spotType }
        | _, _, _, _ => none

def parseSymbols (acc : SymbolData) : List RawSymbol → Option SymbolData
  | [] => some acc
  | s :: rest =>
      match parseOneSymbol acc s with
      | none => none
      | some acc2 => parseSymbols acc2 rest

/-- `Gemini._parse_symbol_data` (gemini.py lines 53-65): `none` embeds an
uncaught exception escaping the loop. -/
def parse_symbol_data (data : List RawSymbol) : Option SymbolData :=
  parseSymbols ⟨[], [], []⟩ data

/-- The payload dict as it stands when `generate_token` serializes it:
`request` and `nonce` written, `account` appended when an account name is
set. -/
def signedPayload (account_name : Option String) (authRoute : String)
    (payload0 : List (String × JVal)) (nonce : Int) : List (String × JVal) :=
  let p1 := assocSet payload0 "request" (JVal.str authRoute)
  let p2 := assocSet p1 "nonce" (JVal.num nonce)
  match account_name with
  | some a => assocSet p2 "account" (JVal.str a)
  | none => p2

/-- The book-replica invariant stated by the spec: no stored price level has
size 0. -/
def Book.noZero (bk : Book) : Prop :=
  (∀ e ∈ bk.bids, e.2 ≠ 0) ∧ ∀ e ∈ bk.asks, e.2 ≠ 0

instance (bk : Book) : Decidable bk.noZero := by
  unfold Book.noZero
  infer_instance

/-- The invariant over the whole per-connection book state. -/
def stateNoZero (st : BookState) : Prop :=
  ∀ e ∈ st, Book.noZero e.2

instance (st : BookState) : Decidable (stateNoZero st) := by
  unfold stateNoZero
  infer_instance

/-! ## Theorems -/

/-- C8: timestamp normalization divides a native millisecond epoch by 1000
to yield a fractional-second epoch; `1547742904989` normalizes to
`1547742904.989` seconds, and `_trade` stamps its Trade with exactly this
normalization. -/
theorem timestamp_normalize_is_div_1000 :
    (∀ ts : ℚ, timestamp_normalize ts = ts / 1000) ∧
    timestamp_normalize 1547742904989 = 1547742904.989 ∧
    (∀ (std : String → String) (m : TradeMsg),
      (tradeOf std m).timestamp = m.timestamp / 1000) :=
  ⟨fun _ => rfl, by norm_num [timestamp_normalize], fun _ _ => rfl⟩

/-- C10: the emitted OrderInfo's order type is LIMIT exactly when the native
`order_type` field is the string `"exchange limit"`; every other value is
emitted as STOP_LIMIT. -/
theorem order_type_limit_iff_exchange_limit (std : String → String)
    (m : OrderMsg) :
    ((orderInfoOf std m).order_type = LIMIT ↔
      m.order_type = "exchange limit") ∧
    (m.order_type ≠ "exchange limit" →
      (orderInfoOf std m).order_type = STOP_LIMIT) := by
  by_cases h : m.order_type = "exchange limit" <;>
    simp [orderInfoOf, LIMIT, STOP_LIMIT, h]

/-- Witness for C10: a market order is emitted as STOP_LIMIT, not LIMIT. -/
theorem order_type_limit_iff_exchange_limit_witness :
    (orderInfoOf id
      ⟨"accepted", "1", "btcusd", "buy", "market buy", 1, 0, 1, 0⟩).order_type =
      STOP_LIMIT :=
  (order_type_limit_iff_exchange_limit id
    ⟨"accepted", "1", "btcusd", "buy", "market buy", 1, 0, 1, 0⟩).2 (by decide)

/-- C3: the order-event status mapping is a fixed total function —
`initial`/`accepted` ↦ SUBMITTING, `fill` ↦ FILLED, `booked` ↦ OPEN,
`rejected` ↦ FAILED, `cancelled` ↦ CANCELLED — and every other native
status string passes through unchanged; `_order` always builds its
OrderInfo with this (total) mapping, so no status value errors or drops
the event. -/
theorem order_status_mapping_total :
    orderStatus "initial" = SUBMITTING ∧
    orderStatus "accepted" = SUBMITTING ∧
    orderStatus "fill" = FILLED ∧
    orderStatus "booked" = OPEN ∧
    orderStatus "rejected" = FAILED ∧
    orderStatus "cancelled" = CANCELLED ∧
    (∀ t : String,
      t ∉ (["initial", "accepted", "fill", "booked", "rejected",
            "cancelled"] : List String) →
      orderStatus t = t) ∧
    (∀ (std : String → String) (m : OrderMsg),
      (orderInfoOf std m).status = orderStatus m.type) := by
  refine ⟨rfl, rfl, rfl, rfl, rfl, rfl, ?_, fun _ _ => rfl⟩
  intro t ht
  simp only [List.mem_cons, List.not_mem_nil, or_false, not_or] at ht
  obtain ⟨h1, h2, h3, h4, h5, h6⟩ := ht
  simp [orderStatus, h1, h2, h3, h4, h5, h6]

/-- Witness for C3: an unmapped native status passes through unchanged. -/
theorem order_status_mapping_total_witness :
    orderStatus "closed" = "closed" :=
  order_status_mapping_total.2.2.2.2.2.2.1 "closed" (by decide)

/-- C6: a JSON-list frame of order events emits exactly one OrderInfo per
element, in the list's order; a two-element `accepted`/`fill` batch yields
exactly the statuses SUBMITTING then FILLED. -/
theorem batch_order_events_preserve_order :
    (∀ (std : String → String) (sub : Subscription) (st : BookState)
        (es : List OrderMsg),
      message_handler std sub st (Frame.orderList es) =
        some (st, es.map (fun m => Event.orderEv (orderInfoOf std m))) ∧
      (es.map (fun m => Event.orderEv (orderInfoOf std m))).length =
        es.length) ∧
    (message_handler id ⟨[]⟩ []
        (Frame.orderList
          [⟨"accepted", "1", "btcusd", "buy", "exchange limit", 3592, 0, 1,
            1547742904989⟩,
           ⟨"fill", "1", "btcusd", "buy", "exchange limit", 3592, 1, 0,
            1547742904989⟩])).map (fun r => r.2.map Event.statusOf) =
      some [SUBMITTING, FILLED] :=
  ⟨fun _ _ _ es => ⟨rfl, by simp⟩, rfl⟩

/-- C5: token generation is deterministic — for fixed payload, path,
credentials and nonce, two invocations agree byte for byte — and the
headers consist of the base64-encoded JSON payload, the API key id, and the
hex HMAC-SHA384 of the base64 payload keyed by the API secret; the payload
header for `(path="/v1/order/events", nonce=123)` is pinned as a golden
value. -/
theorem generate_token_deterministic :
    (∀ (hmacSha384Hex : String → String → String)
        (key_id key_secret : String) (account_name : Option String)
        (authRoute : String) (payload0 : List (String × JVal)) (nonce : Int),
      generate_token hmacSha384Hex key_id key_secret account_name authRoute
          payload0 nonce =
        generate_token hmacSha384Hex key_id key_secret account_name authRoute
          payload0 nonce ∧
      generate_token hmacSha384Hex key_id key_secret account_name authRoute
          payload0 nonce =
        { payload := b64encode (utf8Bytes (jsonDumps
            (signedPayload account_name authRoute payload0 nonce)))
          apikey := key_id
          signature := hmacSha384Hex key_secret
            (b64encode (utf8Bytes (jsonDumps
              (signedPayload account_name authRoute payload0 nonce)))) }) ∧
    (generate_token (fun _ _ => "") "kid" "sec" none authenticationRoute []
        123).payload =
      "eyJyZXF1ZXN0IjoiL3YxL29yZGVyL2V2ZW50cyIsIm5vbmNlIjoxMjN9" := by
  refine ⟨fun hx kid sec acct route p0 nonce => ⟨rfl, ?_⟩, rfl⟩
  cases acct <;> rfl

/-- C7: a book-update frame whose symbol is excluded by the active
book-channel subscription filter (the subscription dict is non-empty and
either has no book channel or lists other symbols for it) leaves the book
state unchanged and emits nothing. -/
theorem interest_filtering (std : String → String) (sub : Subscription)
    (st : BookState) (msg : BookMsg)
    (hne : sub.channels ≠ [])
    (hout : ∀ syms, assocGet sub.channels L2_BOOK = some syms →
      msg.symbol ∉ syms) :
    bookHandler std sub st msg = some (st, none) ∧
    message_handler std sub st (Frame.book msg) = some (st, []) := by
  have hex : excludedBySubscription sub msg.symbol = true := by
    unfold excludedBySubscription
    cases hL : assocGet sub.channels L2_BOOK with
    | none => simp [hL, hne, List.isEmpty_iff]
    | some syms => simp [hL, hne, hout syms hL, List.isEmpty_iff]
  constructor
  · simp [bookHandler, hex]
  · simp [message_handler, bookHandler, hex]

/-- Witness for C7: with only symbol `aaa` subscribed on the book channel,
a frame for `bbb` is dropped without touching the (empty) state. -/
theorem interest_filtering_witness :
    bookHandler id ⟨[(L2_BOOK, ["aaa"])]⟩ [] ⟨"bbb", []⟩ = some ([], none) ∧
    message_handler id ⟨[(L2_BOOK, ["aaa"])]⟩ [] (Frame.book ⟨"bbb", []⟩) =
      some ([], []) :=
  interest_filtering id ⟨[(L2_BOOK, ["aaa"])]⟩ [] ⟨"bbb", []⟩ (by decide)
    (by
      intro syms h
      simp [assocGet] at h
      subst h
      decide)

theorem getSide_withSide (bk : Book) (side : Side) (s : BookSide) :
    (bk.withSide side s).getSide side = s := by
  cases side <;> rfl

theorem sideHasPrice_delLevel (s : BookSide) (p : Price) :
    sideHasPrice (delLevel s p) p = false := by
  induction s with
  | nil => rfl
  | cons e rest ih =>
      obtain ⟨q, t⟩ := e
      by_cases hq : q = p
      · simpa [delLevel, hq] using ih
      · simpa [delLevel, sideHasPrice, hq] using ih

/-- C2: a change with size 0 for a price present on its side removes the
level (it is gone afterwards) and appends exactly the removal entry
`(price, 0)` to that side's delta; with the price absent, book and delta
are left untouched. -/
theorem zero_size_removal (bk : Book) (d : Deltas) (c : Change)
    (h : c.amount = 0) :
    (sideHasPrice (bk.getSide c.resolvedSide) c.price = true →
      applyChange bk d c =
        (bk.withSide c.resolvedSide
          (delLevel (bk.getSide c.resolvedSide) c.price),
         d.push c.resolvedSide (c.price, 0)) ∧
      sideHasPrice ((applyChange bk d c).1.getSide c.resolvedSide) c.price =
        false) ∧
    (sideHasPrice (bk.getSide c.resolvedSide) c.price = false →
      applyChange bk d c = (bk, d)) := by
  constructor
  · intro hin
    have happ : applyChange bk d c =
        (bk.withSide c.resolvedSide
          (delLevel (bk.getSide c.resolvedSide) c.price),
         d.push c.resolvedSide (c.price, 0)) := by
      simp [applyChange, h, hin]
    refine ⟨happ, ?_⟩
    rw [happ]
    simpa [getSide_withSide] using
      sideHasPrice_delLevel (bk.getSide c.resolvedSide) c.price
  · intro hout
    simp [applyChange, h, hout]

/-- Witness for C2: removing the present bid level 100 from a one-level
book yields the empty side and the single removal delta entry. -/
theorem zero_size_removal_witness :
    applyChange ⟨[((100 : ℚ), (5 : ℚ))], []⟩ ⟨[], []⟩ ⟨"buy", 100, 0⟩ =
      (⟨[], []⟩, ⟨[((100 : ℚ), (0 : ℚ))], []⟩) :=
  ((zero_size_removal ⟨[(100, 5)], []⟩ ⟨[], []⟩ ⟨"buy", 100, 0⟩ rfl).1
    (by decide)).1

theorem mem_setLevel (s : BookSide) (p : Price) (v : Size) (e : Price × Size)
    (he : e ∈ setLevel s p v) : e ∈ s ∨ e = (p, v) := by
  induction s with
  | nil =>
      simp only [setLevel, List.mem_singleton] at he
      exact Or.inr he
  | cons f rest ih =>
      obtain ⟨q, t⟩ := f
      by_cases hq : q = p
      · simp only [setLevel, if_pos hq, List.mem_cons] at he
        rcases he with h | h
        · exact Or.inr h
        · exact Or.inl (List.mem_cons_of_mem _ h)
      · simp only [setLevel, if_neg hq, List.mem_cons] at he
        rcases he with h | h
        · exact Or.inl (by simp [h])
        · rcases ih h with h2 | h2
          · exact Or.inl (List.mem_cons_of_mem _ h2)
          · exact Or.inr h2

theorem mem_delLevel (s : BookSide) (p : Price) (e : Price × Size)
    (he : e ∈ delLevel s p) : e ∈ s := by
  induction s with
  | nil => simp [delLevel] at he
  | cons f rest ih =>
      obtain ⟨q, t⟩ := f
      by_cases hq : q = p
      · simp only [delLevel, if_pos hq] at he
        exact List.mem_cons_of_mem _ (ih he)
      · simp only [delLevel, if_neg hq, List.mem_cons] at he
        rcases he with h | h
        · simp [h]
        · exact List.mem_cons_of_mem _ (ih h)

theorem noZero_getSide (bk : Book) (side : Side) (hb : bk.noZero) :
    ∀ e ∈ bk.getSide side, e.2 ≠ 0 := by
  cases side
  · exact hb.1
  · exact hb.2

theorem noZero_withSide (bk : Book) (side : Side) (s : BookSide)
    (hb : bk.noZero) (hs : ∀ e ∈ s, e.2 ≠ 0) : (bk.withSide side s).noZero := by
  cases side
  · exact ⟨hs, hb.2⟩
  · exact ⟨hb.1, hs⟩

theorem noZero_applyChange (bk : Book) (d : Deltas) (c : Change)
    (h : bk.noZero) : (applyChange bk d c).1.noZero := by
  unfold applyChange
  by_cases h0 : c.amount = 0
  · by_cases hin : sideHasPrice (bk.getSide c.resolvedSide) c.price = true
    · simp only [h0, if_true, hin, if_pos]
      exact noZero_withSide _ _ _ h fun e he =>
        noZero_getSide bk _ h e (mem_delLevel _ _ _ he)
    · simp only [h0, if_true, hin]
      simpa [hin] using h
  · simp only [if_neg h0]
    exact noZero_withSide _ _ _ h fun e he => by
      rcases mem_setLevel _ _ _ _ he with h2 | h2
      · exact noZero_getSide bk _ h e h2
      · rw [h2]
        exact h0

theorem noZero_foldChanges (cs : List Change) :
    ∀ (bk : Book) (d : Deltas), bk.noZero →
      (cs.foldl (fun acc c => applyChange acc.1 acc.2 c) (bk, d)).1.noZero := by
  induction cs with
  | nil => intro bk d h; exact h
  | cons c rest ih =>
      intro bk d h
      have step := noZero_applyChange bk d c h
      have := ih (applyChange bk d c).1 (applyChange bk d c).2 step
      simpa using this

theorem stateNoZero_assocGet (st : BookState) (k : String) (bk : Book)
    (h0 : stateNoZero st) (h : assocGet st k = some bk) : bk.noZero := by
  induction st with
  | nil => simp [assocGet] at h
  | cons f rest ih =>
      obtain ⟨k2, v⟩ := f
      by_cases hk : k2 = k
      · simp only [assocGet, if_pos hk, Option.some.injEq] at h
        rw [← h]
        exact h0 (k2, v) (List.mem_cons_self _ _)
      · simp only [assocGet, if_neg hk] at h
        exact ih (fun e he => h0 e (List.mem_cons_of_mem _ he)) h

theorem stateNoZero_assocSet (st : BookState) (k : String) (bk : Book)
    (h0 : stateNoZero st) (hb : bk.noZero) :
    stateNoZero (assocSet st k bk) := by
  induction st with
  | nil =>
      intro e he
      simp only [assocSet, List.mem_singleton] at he
      rw [he]
      exact hb
  | cons f rest ih =>
      obtain ⟨k2, v⟩ := f
      by_cases hk : k2 = k
      · intro e he
        simp only [assocSet, if_pos hk, List.mem_cons] at he
        rcases he with h | h
        · rw [h]; exact hb
        · exact h0 e (List.mem_cons_of_mem _ h)
      · intro e he
        simp only [assocSet, if_neg hk, List.mem_cons] at he
        rcases he with h | h
        · rw [h]; exact h0 (k2, v) (List.mem_cons_self _ _)
        · exact ih (fun x hx => h0 x (List.mem_cons_of_mem _ hx)) e h

theorem stateNoZero_bookHandler (std : String → String) (sub : Subscription)
    (st : BookState) (msg : BookMsg) (st2 : BookState) (em : Option Emission)
    (h0 : stateNoZero st) (h : bookHandler std sub st msg = some (st2, em)) :
    stateNoZero st2 := by
  unfold bookHandler at h
  by_cases hex : excludedBySubscription sub msg.symbol = true
  · simp only [hex, if_true, if_pos, Option.some.injEq, Prod.mk.injEq] at h
    rw [← h.1]
    exact h0
  · simp only [hex, if_false, Bool.false_eq_true, if_neg, not_false_iff] at h
    cases hG : assocGet st (std msg.symbol) with
    | none => rw [hG] at h; simp at h
    | some bk =>
        rw [hG] at h
        simp only [Option.some.injEq, Prod.mk.injEq] at h
        rw [← h.1]
        exact stateNoZero_assocSet st _ _ h0
          (noZero_foldChanges msg.changes bk ⟨[], []⟩
            (stateNoZero_assocGet st _ bk h0 hG))

/-- C9: starting from freshly reset (empty) replicas, handling any sequence
of book-update frames never leaves a size-0 price level stored on either
side of any replica. -/
theorem book_replica_no_zero_levels (std : String → String)
    (sub : Subscription) (st : BookState) (msgs : List BookMsg)
    (st2 : BookState)
    (h0 : ∀ e ∈ st, e.2 = Book.empty)
    (h : runBookFrames std sub st msgs = some st2) :
    stateNoZero st2 := by
  have hz : stateNoZero st := by
    intro e he
    rw [h0 e he]
    exact ⟨by simp [Book.empty], by simp [Book.empty]⟩
  have main : ∀ (ms : List BookMsg) (s : BookState), stateNoZero s →
      runBookFrames std sub s ms = some st2 → stateNoZero st2 := by
    intro ms
    induction ms with
    | nil =>
        intro s hs hrun
        simp only [runBookFrames, Option.some.injEq] at hrun
        rw [← hrun]
        exact hs
    | cons m rest ih =>
        intro s hs hrun
        unfold runBookFrames at hrun
        cases hb : bookHandler std sub s m with
        | none => rw [hb] at hrun; simp at hrun
        | some r =>
            obtain ⟨sA, emA⟩ := r
            rw [hb] at hrun
            exact ih sA (stateNoZero_bookHandler std sub s m sA emA hs hb) hrun
  exact main msgs st hz h

/-- Witness for C9: a frame that inserts bid level 100 and then removes it
with amount 0 leaves a replica with no stored levels at all. -/
theorem book_replica_no_zero_levels_witness :
    stateNoZero [("S", (⟨[], []⟩ : Book))] :=
  book_replica_no_zero_levels id ⟨[]⟩ [("S", Book.empty)]
    [⟨"S", [⟨"buy", 100, 5⟩, ⟨"buy", 100, 0⟩]⟩] [("S", ⟨[], []⟩)]
    (by decide) (by decide)

/-- Counterexample to C1: the forced-snapshot test is bid-side emptiness,
not first-frame-ness.  For a freshly reset symbol, a first frame touching
only the ask side leaves the bid side empty, so the *second* frame for the
same symbol — with no resubscribe in between — again emits `delta = none`:
the run below ends with `some (some none)`, i.e. the second frame's
emission is present and its delta is `none`. -/
theorem forced_snapshot_counterexample :
    (Option.bind
        (bookHandler id ⟨[]⟩ [("BTCUSD", Book.empty)]
          ⟨"BTCUSD", [⟨"sell", 100, 5⟩]⟩)
        (fun r => bookHandler id ⟨[]⟩ r.1 ⟨"BTCUSD", [⟨"sell", 101, 3⟩]⟩)).map
      (fun r => r.2.map Emission.delta) = some (some none) := by
  decide

/-- C1 amended: a handled book-update frame emits `delta = none` exactly
when the symbol's bid side is empty at frame entry.  Hence the first frame
after (re)subscription (replica reset empty) always emits `delta = none`,
and a subsequent frame emits a non-none delta if and only if some bid level
survived to its entry — not unconditionally, as the claim stated. -/
theorem forced_snapshot_iff_bids_empty (std : String → String)
    (sub : Subscription) (st : BookState) (msg : BookMsg) (bk : Book)
    (st2 : BookState) (em : Emission)
    (hb : assocGet st (std msg.symbol) = some bk)
    (h : bookHandler std sub st msg = some (st2, some em)) :
    em.delta = none ↔ bk.bids = [] := by
  unfold bookHandler at h
  by_cases hex : excludedBySubscription sub msg.symbol = true
  · simp [hex] at h
  · simp only [hex, Bool.false_eq_true, if_false, if_neg, not_false_iff] at h
    rw [hb] at h
    simp only [Option.some.injEq, Prod.mk.injEq] at h
    have hd : em.delta =
        if bk.bids.isEmpty then none
        else some (msg.changes.foldl (fun acc c => applyChange acc.1 acc.2 c)
          (bk, Deltas.mk [] [])).2 := by
      rw [← h.2]
    by_cases hbe : bk.bids = []
    · simp [hd, hbe]
    · have : bk.bids.isEmpty = false := by
        simpa [List.isEmpty_iff] using hbe
      simp [hd, this, hbe]

/-- Witness for C1 (amended): the first frame for a freshly reset symbol
emits an emission whose delta is `none`, and the replica's bid side was
indeed empty at entry. -/
theorem forced_snapshot_iff_bids_empty_witness :
    ((⟨"S", ⟨[], [((100 : ℚ), (5 : ℚ))]⟩, none⟩ : Emission).delta = none ↔
      Book.empty.bids = []) :=
  forced_snapshot_iff_bids_empty id ⟨[]⟩ [("S", Book.empty)]
    ⟨"S", [⟨"sell", 100, 5⟩]⟩ Book.empty
    [("S", ⟨[], [(100, 5)]⟩)] ⟨"S", ⟨[], [(100, 5)]⟩, none⟩
    (by decide) (by decide)

/-- Counterexample to C4: a payload whose first descriptor lacks the
`status` field does not get skipped — the whole parse raises (`none`), so
the well-formed second descriptor produces nothing, although on its own it
parses fine. -/
theorem symbol_discovery_missing_field_counterexample :
    parse_symbol_data
        [⟨none, some "BTC", some "USD", some "btcusd", some 1⟩,
         ⟨some "open", some "ETH", some "USD", some "ethusd", some 2⟩] =
      none ∧
    parse_symbol_data
        [⟨some "open", some "ETH", some "USD", some "ethusd", some 2⟩] =
      some ⟨[("ETH-USD", "ethusd")], [("ETH-USD", 2)],
            [("ETH-USD", "spot")]⟩ := by
  exact ⟨rfl, by decide⟩

/-- C4 amended: only descriptors with status `closed` are skipped (parsing
continues with the rest); a descriptor missing a required field is not
skipped — its `KeyError` aborts the whole parse, so the remaining
descriptors in the payload produce nothing.  In particular a missing
`status` field fails immediately. -/
theorem symbol_discovery_abort_on_missing_field (acc : SymbolData)
    (s : RawSymbol) (rest : List RawSymbol) :
    (s.status = some "closed" →
      parseSymbols acc (s :: rest) = parseSymbols acc rest) ∧
    (parseOneSymbol acc s = none → parseSymbols acc (s :: rest) = none) ∧
    (s.status = none → parseOneSymbol acc s = none) := by
  refine ⟨?_, ?_, ?_⟩
  · intro h
    simp [parseSymbols, parseOneSymbol, h]
  · intro h
    simp [parseSymbols, h]
  · intro h
    simp [parseOneSymbol, h]

/-- Witness for C4 (amended): a single descriptor with no `status` field
makes the parse return `none`. -/
theorem symbol_discovery_abort_on_missing_field_witness :
    parseSymbols ⟨[], [], []⟩
        [⟨none, some "BTC", some "USD", some "btcusd", some 1⟩] = none :=
  (symbol_discovery_abort_on_missing_field ⟨[], [], []⟩
      ⟨none, some "BTC", some "USD", some "btcusd", some 1⟩ []).2.1
    ((symbol_discovery_abort_on_missing_field ⟨[], [], []⟩
        ⟨none, some "BTC", some "USD", some "btcusd", some 1⟩ []).2.2 rfl)

end GeminiAdapter
